import Mathlib

/-!
Verification of the `ensure` crate (src/lib.rs): a state-passing shallow
embedding of the `Ensure`/`Meet` traits, the `ensure` and `ensure_verify`
methods, the closure blanket implementations, the free `ensure` function,
and the `Present`/`Absent` markers with the `Existential` trait.

Side effects of checks and actions are modelled by explicit state passing
over an abstract world type `σ`: a Rust `FnOnce` with effects becomes a
function `σ → result × σ`. Fallible calls return `Except`. "An action is
invoked exactly once / never" is expressed with counting instrumentation
(`countMeet`, `countCheck`) that threads an invocation counter through the
world state.
-/

/-- `CheckEnsureResult<M, A>` from src/lib.rs: result of checking whether the
object is in target state. -/
inductive CheckEnsureResult (M A : Type) where
  | Met : M → CheckEnsureResult M A
  | EnsureAction : A → CheckEnsureResult M A
deriving DecidableEq, Repr

/-- `VerificationError` from src/lib.rs: error raised when
`ensure_verify()` failed verification. -/
inductive VerificationError where
  | mk : VerificationError
deriving DecidableEq, Repr

/-- An implementation of the `Ensure<T>` trait (together with the `Meet`
implementation of its associated `EnsureAction` type `A`), for subjects of
type `S`, over a world-state type `σ` and a shared error type `E`.
`check_ensure` and `meet` correspond to the two required trait methods;
both may have side effects on the world (state passing) and may fail. -/
structure EnsureImpl (σ S T A E : Type) where
  check_ensure : S → σ → Except E (CheckEnsureResult T A) × σ
  meet : A → σ → Except E T × σ

/-- The provided method `Ensure::ensure` from src/lib.rs:
`match self.check_ensure()? { Met(met) => Ok(met), EnsureAction(meet) => meet.meet() }`. -/
def EnsureImpl.ensure (I : EnsureImpl σ S T A E) (s : S) (w : σ) :
    Except E T × σ :=
  match I.check_ensure s w with
  | (.error e, w1) => (.error e, w1)
  | (.ok (.Met met), w1) => (.ok met, w1)
  | (.ok (.EnsureAction meet), w1) => I.meet meet w1

/-- The provided method `Ensure::ensure_verify` from src/lib.rs. The
`Self: Clone` bound is the explicit `clone` argument; the
`Error: From<VerificationError>` bound is the explicit `fromVerif`
argument. Mirrors the source: clone first, run `check_ensure` on the
original, and on the action path run the action and re-check the clone. -/
def EnsureImpl.ensure_verify (I : EnsureImpl σ S T A E) (clone : S → S)
    (fromVerif : VerificationError → E) (s : S) (w : σ) : Except E T × σ :=
  let verify := clone s
  match I.check_ensure s w with
  | (.error e, w1) => (.error e, w1)
  | (.ok (.Met met), w1) => (.ok met, w1)
  | (.ok (.EnsureAction action), w1) =>
    match I.meet action w1 with
    | (.error e, w2) => (.error e, w2)
    | (.ok result, w2) =>
      match I.check_ensure verify w2 with
      | (.error e, w3) => (.error e, w3)
      | (.ok (.Met _met), w3) => (.ok result, w3)
      | (.ok (.EnsureAction _action), w3) => (.error (fromVerif .mk), w3)

/-- Instrumentation: the same implementation with the action invocation
counted in the world state. `meet` increments the counter; `check_ensure`
leaves it unchanged. Used to state "the action is run exactly once / never". -/
def countMeet (I : EnsureImpl σ S T A E) : EnsureImpl (Nat × σ) S T A E where
  check_ensure s := fun nw =>
    (let r := I.check_ensure s nw.2
     (r.1, (nw.1, r.2)))
  meet a := fun nw =>
    (let r := I.meet a nw.2
     (r.1, (nw.1 + 1, r.2)))

/-- Instrumentation: the same implementation with the check invocation
counted in the world state. Used to state "the check is run exactly once /
twice". -/
def countCheck (I : EnsureImpl σ S T A E) : EnsureImpl (Nat × σ) S T A E where
  check_ensure s := fun nw =>
    (let r := I.check_ensure s nw.2
     (r.1, (nw.1 + 1, r.2)))
  meet a := fun nw =>
    (let r := I.meet a nw.2
     (r.1, (nw.1, r.2)))

/-- The type of an effectful no-argument closure returning `Result<T, E>`
(the `FnOnce() -> Result<T, E>` of the blanket `Meet` impl). -/
def ClosureAction (σ T E : Type) : Type := σ → Except E T × σ

/-- The type of an effectful no-argument closure returning
`Result<CheckEnsureResult<T, A>, E>` with `A` itself a closure action
(the `FnOnce` of the blanket `Ensure` impl). -/
def ClosureCheck (σ T E : Type) : Type :=
  σ → Except E (CheckEnsureResult T (ClosureAction σ T E)) × σ

/-- The blanket impls from src/lib.rs: a closure subject satisfies
`Ensure` with `check_ensure` being `self()`, and a closure action
satisfies `Meet` with `meet` being `self()`. -/
def closureEnsureImpl (σ T E : Type) :
    EnsureImpl σ (ClosureCheck σ T E) T (ClosureAction σ T E) E where
  check_ensure f := f
  meet a := a

/-- The free function `ensure` from src/lib.rs: runs `ensure()` on a value
implementing `Ensure` (`ensure.ensure()`). -/
def ensure (I : EnsureImpl σ S T A E) (s : S) (w : σ) : Except E T × σ :=
  I.ensure s w

/-- `Present<T>` from src/lib.rs: marks `T` as something that exists. -/
structure Present (T : Type) where
  val : T
deriving DecidableEq, Repr

/-- `Absent<T>` from src/lib.rs: marks `T` as something that does not
exist. -/
structure Absent (T : Type) where
  val : T
deriving DecidableEq, Repr

/-- `Existential::ensure_present` from the blanket `impl Existential for R`
in src/lib.rs: simply `self.ensure()` at target type `Present<T>`. -/
def ensure_present (IP : EnsureImpl σ S (Present T) PA E) (s : S) (w : σ) :
    Except E (Present T) × σ :=
  IP.ensure s w

/-- `Existential::ensure_absent` from the blanket `impl Existential for R`
in src/lib.rs: simply `self.ensure()` at target type `Absent<T>`. -/
def ensure_absent (IA : EnsureImpl σ S (Absent T) AA E) (s : S) (w : σ) :
    Except E (Absent T) × σ :=
  IA.ensure s w

/-- The action of the spec's concrete boolean scenario: returns `3`, or
fails with error `4` when `fail` is set. -/
def testAction (fail : Bool) : ClosureAction Unit Nat Nat :=
  fun w => ((if fail then .error 4 else .ok 3), w)

/-- The subject of the spec's concrete boolean scenario `(met, fail)`:
when `met`, reports `Met 1` (or fails with error `2` when `fail`);
otherwise produces `testAction fail`. -/
def testSubject (met fail : Bool) : ClosureCheck Unit Nat Nat :=
  fun w =>
    ((if met then
        (if fail then .error 2 else .ok (.Met 1))
      else
        .ok (.EnsureAction (testAction fail))), w)

/-- A small concrete implementation used to witness the generic theorems.
Subjects and actions are numeric selectors: subject `0` is already met
with value `10`, subject `1` needs action `5` (which succeeds with `30`),
subject `2` fails inspection with error `20`, subject `3` needs action `6`
(which fails with error `40`). -/
def demoImpl : EnsureImpl Unit Nat Nat Nat Nat where
  check_ensure s _ :=
    ((match s with
      | 0 => .ok (.Met 10)
      | 1 => .ok (.EnsureAction 5)
      | 2 => .error 20
      | 3 => .ok (.EnsureAction 6)
      | _ => .ok (.Met 11)), ())
  meet a _ :=
    ((match a with
      | 5 => .ok 30
      | 6 => .error 40
      | _ => .ok 31), ())

/-- Claim C1: if `check_ensure` reports `Met v`, `ensure` succeeds with
exactly `v`; no `EnsureAction` is invoked: the meet-invocation counter is
unchanged and the result is independent of the `meet` function, so an
action whose meet would fail is never run on this path. -/
theorem ensure_met_no_action (I : EnsureImpl σ S T A E) (s : S) (w w1 : σ)
    (v : T) (h : I.check_ensure s w = (.ok (.Met v), w1)) :
    I.ensure s w = (.ok v, w1) ∧
    (∀ n : Nat, (countMeet I).ensure s (n, w) = (.ok v, (n, w1))) ∧
    (∀ m : A → σ → Except E T × σ,
      EnsureImpl.ensure { check_ensure := I.check_ensure, meet := m } s w
        = (.ok v, w1)) := by
  refine ⟨?_, fun n => ?_, fun m => ?_⟩ <;>
    simp [EnsureImpl.ensure, countMeet, h]

/-- Witness for C1: `demoImpl` on subject `0` is already met with `10`;
no meet invocation is counted. -/
theorem ensure_met_no_action_witness :
    demoImpl.ensure 0 () = (.ok 10, ()) ∧
    (countMeet demoImpl).ensure 0 (0, ()) = (.ok 10, (0, ())) :=
  ⟨(ensure_met_no_action demoImpl 0 () () 10 rfl).1,
   (ensure_met_no_action demoImpl 0 () () 10 rfl).2.1 0⟩

/-- Claim C2: if `check_ensure` reports `EnsureAction a` and `a`'s meet
succeeds with `v`, `ensure` invokes the meet exactly once (counter goes up
by one) and returns exactly `v`. -/
theorem ensure_action_meet_once (I : EnsureImpl σ S T A E) (s : S)
    (w w1 w2 : σ) (a : A) (v : T)
    (hc : I.check_ensure s w = (.ok (.EnsureAction a), w1))
    (hm : I.meet a w1 = (.ok v, w2)) :
    I.ensure s w = (.ok v, w2) ∧
    (∀ n : Nat, (countMeet I).ensure s (n, w) = (.ok v, (n + 1, w2))) := by
  refine ⟨?_, fun n => ?_⟩ <;>
    simp [EnsureImpl.ensure, countMeet, hc, hm]

/-- Witness for C2: `demoImpl` on subject `1` runs action `5` once and
returns its value `30`. -/
theorem ensure_action_meet_once_witness :
    demoImpl.ensure 1 () = (.ok 30, ()) ∧
    (countMeet demoImpl).ensure 1 (0, ()) = (.ok 30, (1, ())) :=
  ⟨(ensure_action_meet_once demoImpl 1 () () () 5 30 rfl rfl).1,
   (ensure_action_meet_once demoImpl 1 () () () 5 30 rfl rfl).2 0⟩

/-- Claim C5: if `check_ensure` fails with `e`, `ensure` returns that
failure unmodified (the check error type is definitionally the shared
`Meet` error type, so the conversion is the identity) and no action is
invoked: the meet counter is unchanged and the result is independent of
the `meet` function. -/
theorem ensure_check_error_propagates (I : EnsureImpl σ S T A E) (s : S)
    (w w1 : σ) (e : E) (h : I.check_ensure s w = (.error e, w1)) :
    I.ensure s w = (.error e, w1) ∧
    (∀ n : Nat, (countMeet I).ensure s (n, w) = (.error e, (n, w1))) ∧
    (∀ m : A → σ → Except E T × σ,
      EnsureImpl.ensure { check_ensure := I.check_ensure, meet := m } s w
        = (.error e, w1)) := by
  refine ⟨?_, fun n => ?_, fun m => ?_⟩ <;>
    simp [EnsureImpl.ensure, countMeet, h]

/-- Witness for C5: `demoImpl` on subject `2` fails inspection with `20`,
which `ensure` propagates with no meet invocation counted. -/
theorem ensure_check_error_propagates_witness :
    demoImpl.ensure 2 () = (.error 20, ()) ∧
    (countMeet demoImpl).ensure 2 (0, ()) = (.error 20, (0, ())) :=
  ⟨(ensure_check_error_propagates demoImpl 2 () () 20 rfl).1,
   (ensure_check_error_propagates demoImpl 2 () () 20 rfl).2.1 0⟩

/-- Claim C6: if `check_ensure` reports `EnsureAction a` and `a`'s meet
fails with `e2`, `ensure` returns `e2` unmodified. -/
theorem ensure_meet_error_propagates (I : EnsureImpl σ S T A E) (s : S)
    (w w1 w2 : σ) (a : A) (e2 : E)
    (hc : I.check_ensure s w = (.ok (.EnsureAction a), w1))
    (hm : I.meet a w1 = (.error e2, w2)) :
    I.ensure s w = (.error e2, w2) := by
  simp [EnsureImpl.ensure, hc, hm]

/-- Witness for C6: `demoImpl` on subject `3` runs action `6`, which fails
with `40`; `ensure` returns that error. -/
theorem ensure_meet_error_propagates_witness :
    demoImpl.ensure 3 () = (.error 40, ()) :=
  ensure_meet_error_propagates demoImpl 3 () () () 6 40 rfl rfl

/-- Claim C3: in `ensure_verify`, if the primary check reports
`EnsureAction a`, `a`'s meet succeeds with `v`, and the check re-run on
the duplicate `clone s` reports `Met v'`, the result is the action's value
`v` (the second check's `v'` is discarded); the check runs exactly twice
(once on the original, once on the duplicate). -/
theorem ensure_verify_success_returns_action_value (I : EnsureImpl σ S T A E)
    (clone : S → S) (fv : VerificationError → E) (s : S) (w w1 w2 w3 : σ)
    (a : A) (v v' : T)
    (hc : I.check_ensure s w = (.ok (.EnsureAction a), w1))
    (hm : I.meet a w1 = (.ok v, w2))
    (hc2 : I.check_ensure (clone s) w2 = (.ok (.Met v'), w3)) :
    I.ensure_verify clone fv s w = (.ok v, w3) ∧
    (∀ n : Nat,
      (countCheck I).ensure_verify clone fv s (n, w) = (.ok v, (n + 1 + 1, w3))) := by
  refine ⟨?_, fun n => ?_⟩ <;>
    simp [EnsureImpl.ensure_verify, countCheck, hc, hm, hc2]

/-- Witness for C3: `demoImpl` on subject `1` with a duplicate that checks
as subject `0`: the action's value `30` is returned, not the second
check's `10`. -/
theorem ensure_verify_success_returns_action_value_witness :
    demoImpl.ensure_verify (fun _ => 0) (fun _ => 99) 1 () = (.ok 30, ()) ∧
    (countCheck demoImpl).ensure_verify (fun _ => 0) (fun _ => 99) 1 (0, ())
      = (.ok 30, (2, ())) :=
  ⟨(ensure_verify_success_returns_action_value demoImpl (fun _ => 0)
      (fun _ => 99) 1 () () () () 5 30 10 rfl rfl rfl).1,
   (ensure_verify_success_returns_action_value demoImpl (fun _ => 0)
      (fun _ => 99) 1 () () () () 5 30 10 rfl rfl rfl).2 0⟩

/-- Claim C4: in `ensure_verify`, if the primary check reports
`EnsureAction a`, `a`'s meet succeeds, but the check re-run on the
duplicate again reports `EnsureAction`, the result is
`VerificationError` converted into the shared error type, not the
action's value. -/
theorem ensure_verify_failure_verification_error (I : EnsureImpl σ S T A E)
    (clone : S → S) (fv : VerificationError → E) (s : S) (w w1 w2 w3 : σ)
    (a a2 : A) (v : T)
    (hc : I.check_ensure s w = (.ok (.EnsureAction a), w1))
    (hm : I.meet a w1 = (.ok v, w2))
    (hc2 : I.check_ensure (clone s) w2 = (.ok (.EnsureAction a2), w3)) :
    I.ensure_verify clone fv s w = (.error (fv .mk), w3) := by
  simp [EnsureImpl.ensure_verify, hc, hm, hc2]

/-- Witness for C4: `demoImpl` on subject `1` with a duplicate that checks
as subject `3` (still needs an action): the result is the converted
verification error `99`, not the action's value `30`. -/
theorem ensure_verify_failure_verification_error_witness :
    demoImpl.ensure_verify (fun _ => 3) (fun _ => 99) 1 () = (.error 99, ()) :=
  ensure_verify_failure_verification_error demoImpl (fun _ => 3)
    (fun _ => 99) 1 () () () () 5 6 30 rfl rfl rfl

/-- Claim C10: in `ensure_verify`, if the check re-run on the duplicate
itself fails with inspection error `e`, the result is that error `e`, not
the verification error; and if the primary check reports `Met v`, the
result is `v` with the check invoked exactly once (never on the
duplicate). -/
theorem ensure_verify_recheck_error_and_met (I : EnsureImpl σ S T A E)
    (clone : S → S) (fv : VerificationError → E) (s : S) (w w1 w2 w3 : σ)
    (a : A) (v : T) (e : E) :
    (I.check_ensure s w = (.ok (.EnsureAction a), w1) →
      I.meet a w1 = (.ok v, w2) →
      I.check_ensure (clone s) w2 = (.error e, w3) →
      I.ensure_verify clone fv s w = (.error e, w3)) ∧
    (I.check_ensure s w = (.ok (.Met v), w1) →
      I.ensure_verify clone fv s w = (.ok v, w1) ∧
      (∀ n : Nat,
        (countCheck I).ensure_verify clone fv s (n, w) = (.ok v, (n + 1, w1)))) := by
  constructor
  · intro hc hm hc2
    simp [EnsureImpl.ensure_verify, hc, hm, hc2]
  · intro hc
    refine ⟨?_, fun n => ?_⟩ <;>
      simp [EnsureImpl.ensure_verify, countCheck, hc]

/-- Witness for C10: `demoImpl` on subject `1` with a duplicate that
checks as subject `2` (inspection fails): the inspection error `20` is
returned; and on subject `0` (already met) the value `10` is returned with
exactly one check counted. -/
theorem ensure_verify_recheck_error_and_met_witness :
    demoImpl.ensure_verify (fun _ => 2) (fun _ => 99) 1 () = (.error 20, ()) ∧
    (countCheck demoImpl).ensure_verify (fun _ => 2) (fun _ => 99) 0 (0, ())
      = (.ok 10, (1, ())) :=
  ⟨(ensure_verify_recheck_error_and_met demoImpl (fun _ => 2) (fun _ => 99)
      1 () () () () 5 30 20).1 rfl rfl rfl,
   ((ensure_verify_recheck_error_and_met demoImpl (fun _ => 2) (fun _ => 99)
      0 () () () () 5 10 20).2 rfl).2 0⟩

/-- Claim C7: any no-argument single-use closure returning
`Result<CheckEnsureResult<T, A>, E>` satisfies the `Ensure` contract with
`check_ensure` equal to calling it, any no-argument single-use closure
returning `Result<T, E>` satisfies the `Meet` contract with `meet` equal
to calling it, and the free function `ensure` agrees with the trait
method `Ensure::ensure` on every such closure. -/
theorem closure_adapter_and_free_ensure (σ T E : Type) :
    (∀ f : ClosureCheck σ T E, (closureEnsureImpl σ T E).check_ensure f = f) ∧
    (∀ a : ClosureAction σ T E, (closureEnsureImpl σ T E).meet a = a) ∧
    (∀ (f : ClosureCheck σ T E) (w : σ),
      ensure (closureEnsureImpl σ T E) f w = (closureEnsureImpl σ T E).ensure f w) :=
  ⟨fun _ => rfl, fun _ => rfl, fun _ _ => rfl⟩

/-- Claim C8: `ensure_present` and `ensure_absent` return exactly the
result of the generic `ensure` instantiated at target type `Present T`
and `Absent T` respectively; they add no behavior of their own. -/
theorem existential_delegates_to_ensure
    (IP : EnsureImpl σ S (Present T) PA E) (IA : EnsureImpl σ S (Absent T) AA E)
    (s : S) (w : σ) :
    ensure_present IP s w = ensure IP s w ∧
    ensure_absent IA s w = ensure IA s w :=
  ⟨rfl, rfl⟩

/-- Claim C9: the boolean scenario `(met, fail)` under the free `ensure`
(with meet invocations counted): `(true, false)` succeeds with `1` via
the already-satisfied path (no meet counted), `(true, true)` fails with
`2`, `(false, false)` succeeds with `3` via the action path (one meet
counted), `(false, true)` fails with `4`. -/
theorem test_scenario_four_cases :
    ensure (countMeet (closureEnsureImpl Unit Nat Nat)) (testSubject true false)
      (0, ()) = (.ok 1, (0, ())) ∧
    ensure (countMeet (closureEnsureImpl Unit Nat Nat)) (testSubject true true)
      (0, ()) = (.error 2, (0, ())) ∧
    ensure (countMeet (closureEnsureImpl Unit Nat Nat)) (testSubject false false)
      (0, ()) = (.ok 3, (1, ())) ∧
    ensure (countMeet (closureEnsureImpl Unit Nat Nat)) (testSubject false true)
      (0, ()) = (.error 4, (1, ())) :=
  ⟨rfl, rfl, rfl, rfl⟩
